import Mathlib

/-!
Verification of the schema-derivation engine of DevPlan-AI-Generator
(`app/services/schema_generator.py`).

The engine is a pure function of its input plus static reference tables,
so it embeds directly: the Python dict `project_data` becomes a structure
of `Option String` fields (`dict.get` with a default becomes `Option.getD`),
Python string operations become explicit functions on `List Char`, and the
floating-point cost figures are modelled with exact rationals (`ℚ`); where
the code truncates a float product to `int`, the embedding is justified by
checking that double-precision truncation and exact rational floor agree on
every value the tables can produce (see `estimate_project_timeline`).
-/

/-- Project input, embedding the Python dict `project_data`.  A missing key
is `none`; `project_data.get(k, d)` is `(·.getD d)`. -/
structure ProjectInput where
  project_type : Option String
  description : Option String
  scale : Option String
  requirements : Option String
  frontend_preference : Option String
  backend_preference : Option String
  database_preference : Option String
deriving Repr, DecidableEq

/-- The four complexity tiers of `ProjectComplexity` (schema_generator.py:20). -/
inductive ProjectComplexity where
  | SIMPLE
  | MODERATE
  | COMPLEX
  | ENTERPRISE
deriving Repr, DecidableEq

/-- Numeric rank of a tier, ordered SIMPLE < MODERATE < COMPLEX < ENTERPRISE. -/
def tierRank : ProjectComplexity → Nat
  | .SIMPLE => 0
  | .MODERATE => 1
  | .COMPLEX => 2
  | .ENTERPRISE => 3

/-- Lower-casing of one character as Python `str.lower` acts on the ASCII and
Latin-1 letters (the only code points the scanned French keywords contain). -/
def pyCharLower (c : Char) : Char :=
  if 'A' ≤ c ∧ c ≤ 'Z' then Char.ofNat (c.toNat + 32)
  else if 0xC0 ≤ c.toNat ∧ c.toNat ≤ 0xDE ∧ c.toNat ≠ 0xD7 then Char.ofNat (c.toNat + 32)
  else c

/-- Python `s.lower()` on the relevant alphabet. -/
def pyLower (s : String) : String :=
  ⟨s.data.map pyCharLower⟩

/-- Whether `n` is a prefix of `l` (auxiliary for substring containment). -/
def isPrefOf : List Char → List Char → Bool
  | [], _ => true
  | _ :: _, [] => false
  | a :: as, b :: bs => a = b && isPrefOf as bs

/-- Python substring containment `n in l` on character lists. -/
def containsSub (n : List Char) : List Char → Bool
  | [] => n.isEmpty
  | c :: rest => isPrefOf n (c :: rest) || containsSub n rest

/-- Python `any(term in hay for term in terms)`. -/
def hasAnyTerm (terms : List String) (hay : String) : Bool :=
  terms.any fun t => containsSub t.data hay.data

/-- Threshold mapping from complexity score to tier
(schema_generator.py:290-297). -/
def tierOf (score : Nat) : ProjectComplexity :=
  if score ≤ 2 then .SIMPLE
  else if score ≤ 4 then .MODERATE
  else if score ≤ 6 then .COMPLEX
  else .ENTERPRISE

/-- Scale factor of the complexity score (schema_generator.py:268-273):
`+3` for `'large'`, `+2` for `'medium'`, `+1` otherwise (including a
missing scale, since `dict.get` yields `None`). -/
def scaleScore (scale : Option String) : Nat :=
  if scale = some "large" then 3
  else if scale = some "medium" then 2
  else 1

/-- Project-type factor of the complexity score (schema_generator.py:276-280),
on `project_data.get('project_type', '')`. -/
def typeScore (pt : String) : Nat :=
  if pt = "saas" ∨ pt = "enterprise" then 2
  else if pt = "ecommerce" ∨ pt = "dashboard" then 1
  else 0

/-- Keyword factor of the complexity score (schema_generator.py:283-287):
the requirements text is lower-cased and scanned for fixed French terms. -/
def requirementsScore (requirements : String) : Nat :=
  (if hasAnyTerm ["paiement", "sécurité", "performance", "scalabilité"]
      (pyLower requirements) then 1 else 0)
    + (if hasAnyTerm ["temps réel", "microservices", "multi-tenant"]
        (pyLower requirements) then 2 else 0)

/-- Total complexity score accumulated by `analyze_project_complexity`. -/
def complexityScore (input : ProjectInput) : Nat :=
  scaleScore input.scale
    + typeScore (input.project_type.getD "")
    + requirementsScore (input.requirements.getD "")

/-- The complexity analyzer `analyze_project_complexity`
(schema_generator.py:263-297). -/
def analyze_project_complexity (input : ProjectInput) : ProjectComplexity :=
  tierOf (complexityScore input)

/-- Technology categories `TechStackCategory` (schema_generator.py:28). -/
inductive TechStackCategory where
  | FRONTEND
  | BACKEND
  | DATABASE
  | DEVOPS
  | TESTING
  | SECURITY
deriving Repr, DecidableEq, BEq

/-- One entry of the static technology catalog `tech_database`
(schema_generator.py:180-261). -/
structure TechEntry where
  name : String
  version : String
  learning_curve : String
  popularity_score : Nat
  maintenance_cost : String
  best_for : List String
deriving Repr, DecidableEq

def reactEntry : TechEntry :=
  { name := "React", version := "18.x", learning_curve := "moderate",
    popularity_score := 9, maintenance_cost := "medium",
    best_for := ["spa", "interactive_ui", "large_teams"] }

def vueEntry : TechEntry :=
  { name := "Vue.js", version := "3.x", learning_curve := "easy",
    popularity_score := 8, maintenance_cost := "low",
    best_for := ["rapid_prototyping", "small_teams", "progressive_enhancement"] }

def nextjsEntry : TechEntry :=
  { name := "Next.js", version := "14.x", learning_curve := "moderate",
    popularity_score := 9, maintenance_cost := "medium",
    best_for := ["seo_important", "ssr", "full_stack"] }

def nodejsEntry : TechEntry :=
  { name := "Node.js", version := "20.x LTS", learning_curve := "easy",
    popularity_score := 9, maintenance_cost := "medium",
    best_for := ["api_development", "real_time", "microservices"] }

def pythonEntry : TechEntry :=
  { name := "Python", version := "3.12", learning_curve := "easy",
    popularity_score := 10, maintenance_cost := "low",
    best_for := ["data_processing", "ai_ml", "rapid_development"] }

def javaEntry : TechEntry :=
  { name := "Java", version := "21 LTS", learning_curve := "moderate",
    popularity_score := 8, maintenance_cost := "high",
    best_for := ["enterprise", "high_performance", "large_teams"] }

def postgresqlEntry : TechEntry :=
  { name := "PostgreSQL", version := "16.x", learning_curve := "moderate",
    popularity_score := 9, maintenance_cost := "medium",
    best_for := ["relational_data", "complex_queries", "acid_compliance"] }

def mongodbEntry : TechEntry :=
  { name := "MongoDB", version := "7.x", learning_curve := "easy",
    popularity_score := 8, maintenance_cost := "medium",
    best_for := ["document_storage", "rapid_prototyping", "flexible_schema"] }

def redisEntry : TechEntry :=
  { name := "Redis", version := "7.x", learning_curve := "easy",
    popularity_score := 9, maintenance_cost := "low",
    best_for := ["caching", "session_storage", "real_time"] }

/-- The frontend section of `tech_database`, key order as in the source. -/
def frontendDB : List (String × TechEntry) :=
  [("react", reactEntry), ("vue", vueEntry), ("nextjs", nextjsEntry)]

/-- The backend section of `tech_database`. -/
def backendDB : List (String × TechEntry) :=
  [("nodejs", nodejsEntry), ("python", pythonEntry), ("java", javaEntry)]

/-- The database section of `tech_database`. -/
def databaseDB : List (String × TechEntry) :=
  [("postgresql", postgresqlEntry), ("mongodb", mongodbEntry), ("redis", redisEntry)]

/-- A technology recommendation record `TechnologyRecommendation`
(schema_generator.py:38-48). -/
structure TechnologyRecommendation where
  name : String
  category : TechStackCategory
  version : String
  reason : String
  alternatives : List String
  learning_curve : String
  popularity_score : Nat
  maintenance_cost : String
deriving Repr, DecidableEq

/-- Python `if pref and pref in db: db[pref]` — the preference is used only
when truthy (non-`None`, non-empty) and an exact dict key (case-sensitive). -/
def prefEntry (db : List (String × TechEntry)) : Option String → Option TechEntry
  | none => none
  | some p => if p = "" then none else db.lookup p

/-- The recommendation built in a user-preference branch
(schema_generator.py:308-317 and its two analogues): the reason quotes the
entry's `best_for` tags and the alternatives are ALL keys of the category
(`list(db.keys())`, the selected key included). -/
def userPrefRec (cat : TechStackCategory) (db : List (String × TechEntry))
    (e : TechEntry) : TechnologyRecommendation :=
  { name := e.name, category := cat, version := e.version,
    reason := "Préférence utilisateur - " ++ String.intercalate ", " e.best_for,
    alternatives := db.map Prod.fst,
    learning_curve := e.learning_curve, popularity_score := e.popularity_score,
    maintenance_cost := e.maintenance_cost }

/-- The recommendation built in an automatic branch, from a catalog entry, a
fixed reason string and a fixed alternatives list. -/
def autoRec (cat : TechStackCategory) (e : TechEntry) (reason : String)
    (alts : List String) : TechnologyRecommendation :=
  { name := e.name, category := cat, version := e.version, reason := reason,
    alternatives := alts, learning_curve := e.learning_curve,
    popularity_score := e.popularity_score, maintenance_cost := e.maintenance_cost }

/-- Frontend branch of `generate_tech_recommendations`
(schema_generator.py:304-336). -/
def recFrontend (input : ProjectInput) (c : ProjectComplexity) : TechnologyRecommendation :=
  match prefEntry frontendDB input.frontend_preference with
  | some tech => userPrefRec .FRONTEND frontendDB tech
  | none =>
      if c = .SIMPLE ∨ c = .MODERATE then
        autoRec .FRONTEND vueEntry "Facilité d'apprentissage et développement rapide"
          ["React", "Vue.js", "Angular"]
      else
        autoRec .FRONTEND reactEntry "Écosystème riche et support pour projets complexes"
          ["React", "Vue.js", "Angular"]

/-- Backend branch of `generate_tech_recommendations`
(schema_generator.py:338-370). -/
def recBackend (input : ProjectInput) (c : ProjectComplexity) : TechnologyRecommendation :=
  match prefEntry backendDB input.backend_preference with
  | some tech => userPrefRec .BACKEND backendDB tech
  | none =>
      if c = .ENTERPRISE then
        autoRec .BACKEND javaEntry "Performance et robustesse pour applications d'entreprise"
          ["Node.js", "Python", "Java", "C#"]
      else
        autoRec .BACKEND nodejsEntry "Développement rapide et écosystème JavaScript unifié"
          ["Node.js", "Python", "Java", "C#"]

/-- Database branch of `generate_tech_recommendations`
(schema_generator.py:372-398). -/
def recDatabase (input : ProjectInput) (_c : ProjectComplexity) : TechnologyRecommendation :=
  match prefEntry databaseDB input.database_preference with
  | some tech => userPrefRec .DATABASE databaseDB tech
  | none =>
      autoRec .DATABASE postgresqlEntry "Base de données relationnelle robuste et performante"
        ["PostgreSQL", "MySQL", "MongoDB"]

/-- The recommender `generate_tech_recommendations`
(schema_generator.py:299-400): one append per category, in source order. -/
def generate_tech_recommendations (input : ProjectInput)
    (c : ProjectComplexity) : List TechnologyRecommendation :=
  [recFrontend input c, recBackend input c, recDatabase input c]

/-- One entry of the static `project_templates` table
(schema_generator.py:140-178). -/
structure ProjectTemplate where
  name : String
  base_components : List String
  required_features : List String
  complexity_multiplier : ℚ
  estimated_weeks : Nat
deriving Repr, DecidableEq

def ecommerceTemplate : ProjectTemplate :=
  { name := "Plateforme E-commerce",
    base_components := ["web_frontend", "api_backend", "database", "payment_gateway", "cdn"],
    required_features := ["user_auth", "product_catalog", "cart", "checkout", "admin_panel"],
    complexity_multiplier := 13/10, estimated_weeks := 16 }

def saasTemplate : ProjectTemplate :=
  { name := "Application SaaS",
    base_components := ["web_frontend", "api_backend", "database", "auth_service", "billing"],
    required_features := ["multi_tenant", "subscription", "analytics", "api_access"],
    complexity_multiplier := 3/2, estimated_weeks := 20 }

def mobileTemplate : ProjectTemplate :=
  { name := "Application Mobile",
    base_components := ["mobile_app", "api_backend", "database", "push_notifications"],
    required_features := ["offline_sync", "real_time", "user_auth"],
    complexity_multiplier := 6/5, estimated_weeks := 14 }

def apiTemplate : ProjectTemplate :=
  { name := "API REST",
    base_components := ["api_backend", "database", "documentation", "monitoring"],
    required_features := ["versioning", "rate_limiting", "auth", "caching"],
    complexity_multiplier := 4/5, estimated_weeks := 8 }

def dashboardTemplate : ProjectTemplate :=
  { name := "Dashboard Analytics",
    base_components := ["web_frontend", "api_backend", "database", "analytics_engine"],
    required_features := ["real_time_data", "charts", "export", "user_management"],
    complexity_multiplier := 11/10, estimated_weeks := 12 }

/-- The `project_templates` table, key order as in the source. -/
def projectTemplates : List (String × ProjectTemplate) :=
  [("ecommerce", ecommerceTemplate), ("saas", saasTemplate), ("mobile", mobileTemplate),
   ("api", apiTemplate), ("dashboard", dashboardTemplate)]

/-- Python `self.project_templates.get(project_data.get('project_type', 'custom'),
self.project_templates['api'])`, as used by both the architecture composer
(schema_generator.py:406-409) and the timeline estimator (py:491-492). -/
def templateOf (input : ProjectInput) : ProjectTemplate :=
  (projectTemplates.lookup (input.project_type.getD "custom")).getD apiTemplate

/-- An architecture component `ArchitectureComponent`
(schema_generator.py:51-60). -/
structure ArchitectureComponent where
  name : String
  type : String
  description : String
  technologies : List String
  connections : List String
  scalability : String
  estimated_complexity : Nat
deriving Repr, DecidableEq

/-- Python `next((t for t in recs if t.category == cat), None)`. -/
def findByCategory (recs : List TechnologyRecommendation)
    (cat : TechStackCategory) : Option TechnologyRecommendation :=
  recs.find? fun t => t.category == cat

/-- The architecture composer `generate_architecture_components`
(schema_generator.py:402-485): one conditional block per component,
appended in source order. -/
def generate_architecture_components (input : ProjectInput)
    (recs : List TechnologyRecommendation) : List ArchitectureComponent :=
  let pt := input.project_type.getD "custom"
  let template := (projectTemplates.lookup pt).getD apiTemplate
  let frontendBlock :=
    if template.base_components.contains "web_frontend" then
      [{ name := "Frontend Application", type := "web_application",
         description := "Interface utilisateur interactive et responsive",
         technologies := [((findByCategory recs .FRONTEND).map (·.name)).getD "React"],
         connections := ["api_backend"], scalability := "CDN + Edge Caching",
         estimated_complexity := 6 : ArchitectureComponent }]
    else []
  let backendBlock :=
    if template.base_components.contains "api_backend" then
      [{ name := "API Backend", type := "rest_api",
         description := "API REST pour la logique métier et gestion des données",
         technologies := [((findByCategory recs .BACKEND).map (·.name)).getD "Node.js",
                          "Express/Fastify"],
         connections := ["database", "cache"],
         scalability := "Horizontal scaling + Load Balancer",
         estimated_complexity := 8 : ArchitectureComponent }]
    else []
  let databaseBlock :=
    if template.base_components.contains "database" then
      [{ name := "Primary Database", type := "database",
         description := "Stockage principal des données",
         technologies := [((findByCategory recs .DATABASE).map (·.name)).getD "PostgreSQL"],
         connections := ["api_backend"], scalability := "Read replicas + Partitioning",
         estimated_complexity := 7 : ArchitectureComponent }]
    else []
  let cacheBlock :=
    if input.scale = some "medium" ∨ input.scale = some "large" then
      [{ name := "Cache Layer", type := "cache",
         description := "Cache en mémoire pour optimiser les performances",
         technologies := ["Redis"], connections := ["api_backend"],
         scalability := "Redis Cluster", estimated_complexity := 4 : ArchitectureComponent }]
    else []
  let specificBlock :=
    if pt = "ecommerce" then
      [{ name := "Payment Gateway", type := "external_service",
         description := "Intégration système de paiement sécurisé",
         technologies := ["Stripe", "PayPal API"], connections := ["api_backend"],
         scalability := "Service géré externe", estimated_complexity := 6 : ArchitectureComponent }]
    else if pt = "mobile" then
      [{ name := "Push Notification Service", type := "notification_service",
         description := "Service de notifications push pour mobile",
         technologies := ["FCM", "APNs"], connections := ["api_backend"],
         scalability := "Service géré externe", estimated_complexity := 5 : ArchitectureComponent }]
    else []
  frontendBlock ++ backendBlock ++ databaseBlock ++ cacheBlock ++ specificBlock

/-- A time estimation record `TimeEstimation` (schema_generator.py:63-72). -/
structure TimeEstimation where
  task_name : String
  estimated_hours : Nat
  min_hours : Nat
  max_hours : Nat
  dependencies : List String
  critical_path : Bool
  required_skills : List String
deriving Repr, DecidableEq

/-- A development phase `ProjectPhase` (schema_generator.py:86-96). -/
structure ProjectPhase where
  name : String
  description : String
  duration_weeks : Nat
  tasks : List String
  deliverables : List String
  dependencies : List String
  team_size : Nat
  time_estimations : List TimeEstimation
deriving Repr, DecidableEq

/-- Numerator over 10 of the `complexity_multiplier` dict of
`estimate_project_timeline` (schema_generator.py:495-500): the multipliers
0.7, 1.0, 1.3, 1.6. -/
def multNum : ProjectComplexity → Nat
  | .SIMPLE => 7
  | .MODERATE => 10
  | .COMPLEX => 13
  | .ENTERPRISE => 16

/-- The timeline estimator `estimate_project_timeline`
(schema_generator.py:487-607).  The source computes
`total_weeks = int(base_weeks * complexity_multiplier[complexity])` in
double-precision floating point; for every `estimated_weeks` value the
template table can produce ({8, 12, 14, 16, 20}) and every multiplier, the
truncated double product equals the exact rational floor
`base_weeks * multNum / 10` (checked case by case, including the ties
`20 × 0.7 = 14.0` and `20 × 1.6 = 32.0` where the double product rounds to
the exact integer), so the embedding uses natural-number division. -/
def estimate_project_timeline (input : ProjectInput)
    (c : ProjectComplexity) : List ProjectPhase × Nat :=
  let template := templateOf input
  let total_weeks := template.estimated_weeks * multNum c / 10
  let phases : List ProjectPhase :=
    [{ name := "Planning & Setup",
       description := "Analyse des besoins, setup environnement, architecture détaillée",
       duration_weeks := max 1 (total_weeks / 8),
       tasks := ["Analyse des requirements", "Architecture système détaillée",
                 "Setup environnement de développement", "Configuration CI/CD",
                 "Setup base de données"],
       deliverables := ["Document d'architecture", "Environnement de développement",
                        "Repository configuré"],
       dependencies := [], team_size := 2, time_estimations := [] },
     { name := "Backend Development",
       description := "Développement API, base de données, logique métier",
       duration_weeks := max 2 (total_weeks / 3),
       tasks := ["Modèles de données", "API endpoints", "Authentification",
                 "Logique métier", "Tests unitaires"],
       deliverables := ["API fonctionnelle", "Documentation API", "Tests backend"],
       dependencies := ["Planning & Setup"], team_size := 2, time_estimations := [] },
     { name := "Frontend Development",
       description := "Interface utilisateur, intégration API",
       duration_weeks := max 2 (total_weeks / 3),
       tasks := ["Interface utilisateur", "Intégration API", "Gestion d'état",
                 "Responsive design", "Tests frontend"],
       deliverables := ["Interface utilisateur complète", "Application responsive",
                        "Tests frontend"],
       dependencies := ["Backend Development"], team_size := 2, time_estimations := [] },
     { name := "Integration & Testing",
       description := "Tests d'intégration, optimisation, préparation déploiement",
       duration_weeks := max 1 (total_weeks / 6),
       tasks := ["Tests d'intégration", "Tests E2E", "Optimisation performance",
                 "Sécurité", "Préparation déploiement"],
       deliverables := ["Application testée", "Rapport de sécurité",
                        "Guide de déploiement"],
       dependencies := ["Frontend Development"], team_size := 3, time_estimations := [] },
     { name := "Deployment & Launch",
       description := "Déploiement production, monitoring, documentation",
       duration_weeks := max 1 (total_weeks / 10),
       tasks := ["Déploiement production", "Configuration monitoring",
                 "Documentation utilisateur", "Formation équipe", "Go-live"],
       deliverables := ["Application en production", "Monitoring actif",
                        "Documentation complète"],
       dependencies := ["Integration & Testing"], team_size := 2, time_estimations := [] }]
  (phases, total_weeks)

/-- A cost estimation record `CostEstimation` (schema_generator.py:75-83).
The Python floats are modelled as exact rationals; the dict
`third_party_services` becomes an association list in insertion order. -/
structure CostEstimation where
  development_cost : ℚ
  infrastructure_cost_monthly : ℚ
  maintenance_cost_monthly : ℚ
  third_party_services : List (String × ℚ)
  total_first_year : ℚ
  ongoing_yearly : ℚ
deriving Repr, DecidableEq

/-- Monthly infrastructure cost table `base_infra_cost`
(schema_generator.py:623-628). -/
def baseInfraCost : ProjectComplexity → ℚ
  | .SIMPLE => 50
  | .MODERATE => 150
  | .COMPLEX => 300
  | .ENTERPRISE => 600

/-- The cost estimator `estimate_costs` (schema_generator.py:609-659).
Constants from the source: hourly rate 75, 40 hours per week, mean team
size 2.5 = 5/2, maintenance rate 0.2 = 1/5.  Note `project_type` is read
with `dict.get` and no default here, so only an exactly matching string
selects a third-party block. -/
def estimate_costs (input : ProjectInput) (c : ProjectComplexity)
    (total_weeks : Nat) : CostEstimation :=
  let development_hours : ℚ := (total_weeks : ℚ) * 40 * (5/2)
  let development_cost : ℚ := development_hours * 75
  let infrastructure_monthly := baseInfraCost c
  let third_party_services : List (String × ℚ) :=
    if input.project_type = some "ecommerce" then
      [("Payment Processing", 29), ("Email Service", 15), ("CDN", 20)]
    else if input.project_type = some "saas" then
      [("Auth Service", 25), ("Analytics", 35), ("Monitoring", 25)]
    else []
  let third_party_monthly := (third_party_services.map Prod.snd).sum
  let maintenance_monthly := development_cost * (1/5) / 12
  let total_monthly := infrastructure_monthly + third_party_monthly + maintenance_monthly
  { development_cost := development_cost,
    infrastructure_cost_monthly := infrastructure_monthly,
    maintenance_cost_monthly := maintenance_monthly,
    third_party_services := third_party_services,
    total_first_year := development_cost + total_monthly * 12,
    ongoing_yearly := total_monthly * 12 }

/-- The computational core of the aggregate `DetailedSchema`
(schema_generator.py:100-129, populated at py:698-717).  The narrative
string fields, the fixed-text recommendation/risk/success lists, the
constant confidence score and the generation timestamp carry no claimed
logic and are omitted; `total_duration_weeks` is the estimator's
`total_weeks` (py:709). -/
structure DetailedSchema where
  complexity : ProjectComplexity
  tech_recommendations : List TechnologyRecommendation
  architecture_components : List ArchitectureComponent
  project_phases : List ProjectPhase
  total_duration_weeks : Nat
  cost_estimation : CostEstimation
deriving Repr, DecidableEq

/-- The orchestrator `generate_detailed_schema` (schema_generator.py:661-724),
restricted to the computational fields of the schema. -/
def generate_detailed_schema (input : ProjectInput) : DetailedSchema :=
  let complexity := analyze_project_complexity input
  let tech_recommendations := generate_tech_recommendations input complexity
  let architecture_components := generate_architecture_components input tech_recommendations
  let (project_phases, total_weeks) := estimate_project_timeline input complexity
  let cost_estimation := estimate_costs input complexity total_weeks
  { complexity := complexity,
    tech_recommendations := tech_recommendations,
    architecture_components := architecture_components,
    project_phases := project_phases,
    total_duration_weeks := total_weeks,
    cost_estimation := cost_estimation }

/-! Spec-side formalisations, written from the specification's words, to be
compared with the definitions above. -/

/-- Case-insensitive containment as the spec words it: the requirements text
contains the term case-insensitively, i.e. both sides lower-cased. -/
def specContainsCI (term text : String) : Bool :=
  containsSub (pyLower term).data (pyLower text).data

/-- The complexity score exactly as the spec describes it (spec §4.1):
start at 0; add 3 if scale is "large", 2 if "medium", 1 otherwise; add 2 if
project_type is saas or enterprise, 1 if ecommerce or dashboard, else 0;
add 1 if requirements contains case-insensitively any security keyword;
independently add 2 for any architecture keyword. -/
def specComplexityScore (input : ProjectInput) : Nat :=
  (if input.scale = some "large" then 3
   else if input.scale = some "medium" then 2
   else 1)
  + (let pt := input.project_type.getD ""
     if pt = "saas" ∨ pt = "enterprise" then 2
     else if pt = "ecommerce" ∨ pt = "dashboard" then 1
     else 0)
  + (if ["paiement", "sécurité", "performance", "scalabilité"].any
        (fun t => specContainsCI t (input.requirements.getD "")) then 1 else 0)
  + (if ["temps réel", "microservices", "multi-tenant"].any
        (fun t => specContainsCI t (input.requirements.getD "")) then 2 else 0)

/-- The spec's timeline multiplier table {SIMPLE:0.7, MODERATE:1.0,
COMPLEX:1.3, ENTERPRISE:1.6} as exact rationals (spec §4.4). -/
def specMultiplier : ProjectComplexity → ℚ
  | .SIMPLE => 7/10
  | .MODERATE => 1
  | .COMPLEX => 13/10
  | .ENTERPRISE => 8/5

/-- The spec's `total_weeks = floor(template.base_weeks × multiplier(tier))`
(spec §4.4). -/
def specTotalWeeks (input : ProjectInput) (c : ProjectComplexity) : Nat :=
  ⌊((templateOf input).estimated_weeks : ℚ) * specMultiplier c⌋₊

/-! Concrete inputs used by counterexamples and witnesses. -/

/-- Scenario B of the spec: {project_type:"api", scale:"small", requirements:""}. -/
def scenarioB : ProjectInput :=
  ⟨some "api", none, some "small", some "", none, none, none⟩

/-- An input with every field missing (the empty `project_data` dict). -/
def emptyInput : ProjectInput :=
  ⟨none, none, none, none, none, none, none⟩

/-- An input whose frontend preference "react" is exactly a catalog key. -/
def exactPrefInput : ProjectInput :=
  ⟨none, none, none, none, some "react", none, none⟩

/-- An input whose frontend preference "React" matches a catalog key only
case-insensitively. -/
def casedPrefInput : ProjectInput :=
  ⟨none, none, none, none, some "React", none, none⟩

/-- An input with an exact catalog preference in every category. -/
def allPrefInput : ProjectInput :=
  ⟨none, none, none, none, some "react", some "python", some "mongodb"⟩

/-- A small-scale input, and the same input with scale raised to medium. -/
def smallScaleInput : ProjectInput :=
  ⟨some "api", none, some "small", some "", none, none, none⟩

def mediumScaleInput : ProjectInput :=
  ⟨some "api", none, some "medium", some "", none, none, none⟩

/-- Scenario C of the spec with an unmatched frontend preference added:
{project_type:"unknown_type", scale:"medium"}, frontend preference "angular". -/
def unknownTypeInput : ProjectInput :=
  ⟨some "unknown_type", none, some "medium", none, some "angular", none, none⟩

/-- An input with unmatched backend and database preferences. -/
def unknownPrefInput : ProjectInput :=
  ⟨some "api", none, some "small", none, none, some "ruby", some "oracle"⟩

/-- A small-scale input whose template (the "api" fallback) contains
`api_backend`. -/
def smallApiInput : ProjectInput :=
  ⟨some "api", none, some "small", none, none, none, none⟩

/-! Helper lemmas. -/

/-- A prefix of a list is a prefix of any extension of that list. -/
theorem isPrefOf_append (n l m : List Char) (h : isPrefOf n l = true) :
    isPrefOf n (l ++ m) = true := by
  induction n generalizing l with
  | nil => rfl
  | cons a as ih =>
      cases l with
      | nil => simp [isPrefOf] at h
      | cons b bs =>
          simp only [isPrefOf, Bool.and_eq_true] at h ⊢
          exact ⟨h.1, ih bs h.2⟩

/-- The empty needle occurs in every haystack. -/
theorem containsSub_nil (m : List Char) : containsSub [] m = true := by
  cases m with
  | nil => rfl
  | cons c rest => simp [containsSub, isPrefOf]

/-- Substring containment is preserved by appending to the haystack. -/
theorem containsSub_append_left (n l m : List Char) (h : containsSub n l = true) :
    containsSub n (l ++ m) = true := by
  induction l with
  | nil =>
      simp only [containsSub, List.isEmpty_iff] at h
      subst h
      simpa using containsSub_nil m
  | cons c rest ih =>
      simp only [containsSub, Bool.or_eq_true] at h
      rcases h with h | h
      · simp only [List.cons_append, containsSub, Bool.or_eq_true]
        exact Or.inl (by simpa using isPrefOf_append n (c :: rest) m h)
      · simp only [List.cons_append, containsSub, Bool.or_eq_true]
        exact Or.inr (ih h)

/-- Lower-casing distributes over string append. -/
theorem pyLower_append (r k : String) :
    pyLower (r ++ k) = pyLower r ++ pyLower k := by
  cases r with
  | mk rd =>
      cases k with
      | mk kd =>
          show String.mk ((rd ++ kd).map pyCharLower)
            = String.mk (rd.map pyCharLower ++ kd.map pyCharLower)
          rw [List.map_append]

/-- Appending text to the requirements never removes a keyword match. -/
theorem hasAnyTerm_append (ts : List String) (r k : String)
    (h : hasAnyTerm ts (pyLower r) = true) :
    hasAnyTerm ts (pyLower (r ++ k)) = true := by
  simp only [hasAnyTerm, List.any_eq_true] at h ⊢
  obtain ⟨t, ht, hc⟩ := h
  refine ⟨t, ht, ?_⟩
  rw [pyLower_append]
  cases hr : pyLower r with
  | mk rd =>
      cases hk : pyLower k with
      | mk kd =>
          rw [hr] at hc
          show containsSub t.data (String.mk (rd ++ kd)).data = true
          exact containsSub_append_left t.data rd kd hc

/-- Appending text to the requirements never lowers the keyword score. -/
theorem requirementsScore_append (r k : String) :
    requirementsScore r ≤ requirementsScore (r ++ k) := by
  unfold requirementsScore
  have m1 : (if hasAnyTerm ["paiement", "sécurité", "performance", "scalabilité"]
        (pyLower r) then 1 else 0)
      ≤ (if hasAnyTerm ["paiement", "sécurité", "performance", "scalabilité"]
        (pyLower (r ++ k)) then 1 else 0) := by
    by_cases h : hasAnyTerm ["paiement", "sécurité", "performance", "scalabilité"]
        (pyLower r) = true
    · rw [if_pos h, if_pos (hasAnyTerm_append _ _ _ h)]
    · rw [if_neg h]
      exact Nat.zero_le _
  have m2 : (if hasAnyTerm ["temps réel", "microservices", "multi-tenant"]
        (pyLower r) then 2 else 0)
      ≤ (if hasAnyTerm ["temps réel", "microservices", "multi-tenant"]
        (pyLower (r ++ k)) then 2 else 0) := by
    by_cases h : hasAnyTerm ["temps réel", "microservices", "multi-tenant"]
        (pyLower r) = true
    · rw [if_pos h, if_pos (hasAnyTerm_append _ _ _ h)]
    · rw [if_neg h]
      exact Nat.zero_le _
  exact Nat.add_le_add m1 m2

/-- The threshold map from score to tier is monotone. -/
theorem tierOf_mono {s t : Nat} (h : s ≤ t) :
    tierRank (tierOf s) ≤ tierRank (tierOf t) := by
  unfold tierOf
  split_ifs <;> simp only [tierRank] <;> omega

/-! Claim theorems. -/

/-- C1, counterexample: on Scenario B ({project_type:"api", scale:"small",
requirements:""}) the generated schema has `total_duration_weeks = 5`, but
the five phases' `duration_weeks` sum to 1+2+2+1+1 = 7, so the claimed
invariant `sum(phase.duration_weeks) == total_weeks` fails. -/
theorem c1_counterexample :
    ((generate_detailed_schema scenarioB).project_phases.map (·.duration_weeks)).sum = 7
    ∧ (generate_detailed_schema scenarioB).total_duration_weeks = 5
    ∧ (7 : Nat) ≠ 5 := by
  refine ⟨rfl, rfl, by decide⟩

/-- C1, amended: in every generated schema `total_duration_weeks` is the
timeline estimator's `total_weeks`, and the sum of the five phases'
`duration_weeks` equals `max 1 (tw/8) + max 2 (tw/3) + max 2 (tw/3)
+ max 1 (tw/6) + max 1 (tw/10)` for `tw = total_duration_weeks` — a value
the per-phase floors and minimums make different from `total_weeks` in
general. -/
theorem c1_phase_sum_formula (input : ProjectInput) :
    ((generate_detailed_schema input).project_phases.map (·.duration_weeks)).sum
      = max 1 ((generate_detailed_schema input).total_duration_weeks / 8)
        + max 2 ((generate_detailed_schema input).total_duration_weeks / 3)
        + max 2 ((generate_detailed_schema input).total_duration_weeks / 3)
        + max 1 ((generate_detailed_schema input).total_duration_weeks / 6)
        + max 1 ((generate_detailed_schema input).total_duration_weeks / 10)
    ∧ (generate_detailed_schema input).total_duration_weeks
      = (estimate_project_timeline input (analyze_project_complexity input)).2 := by
  constructor
  · unfold generate_detailed_schema estimate_project_timeline
    simp only [List.map_cons, List.map_nil, List.sum_cons, List.sum_nil]
    omega
  · rfl

/-- C2, counterexample: on the input with every field missing (empty
`project_data`), the analyzer returns SIMPLE (score 1 from the scale
else-branch) and the generator returns a complete schema — no tagged error
is raised for the missing mandatory fields. -/
theorem c2_counterexample :
    analyze_project_complexity emptyInput = ProjectComplexity.SIMPLE
    ∧ (generate_detailed_schema emptyInput).complexity = ProjectComplexity.SIMPLE
    ∧ (generate_detailed_schema emptyInput).total_duration_weeks = 5 := by
  refine ⟨rfl, rfl, rfl⟩

/-- C2, amended: the engine never rejects an input for missing mandatory
fields — with `project_type` and `scale` both absent it behaves exactly as
with `project_type = ""` and `scale = "small"` (the documented defaulting
branches), producing a tier and a full schema. -/
theorem c2_missing_fields_defaulted (input : ProjectInput)
    (h1 : input.project_type = none) (h2 : input.scale = none) :
    generate_detailed_schema input
      = generate_detailed_schema
          { input with project_type := some "", scale := some "small" } := by
  obtain ⟨pt, d, sc, rq, fp, bp, dp⟩ := input
  simp only at h1 h2
  subst h1 h2
  rfl

/-- C2 witness: the amended theorem applied to the empty input. -/
theorem c2_witness :
    generate_detailed_schema emptyInput
      = generate_detailed_schema
          { emptyInput with project_type := some "", scale := some "small" } :=
  c2_missing_fields_defaulted emptyInput rfl rfl

/-- C3: for every project input, `analyze_project_complexity` returns
exactly the tier of the score described by the spec — scale factor 3/2/1,
type bonus 2/1/0, and the two independent case-insensitive keyword scans
adding 1 and 2. -/
theorem c3_scoring_matches_spec (input : ProjectInput) :
    analyze_project_complexity input = tierOf (specComplexityScore input) := by
  have e1 : pyLower "paiement" = "paiement" := rfl
  have e2 : pyLower "sécurité" = "sécurité" := rfl
  have e3 : pyLower "performance" = "performance" := rfl
  have e4 : pyLower "scalabilité" = "scalabilité" := rfl
  have e5 : pyLower "temps réel" = "temps réel" := rfl
  have e6 : pyLower "microservices" = "microservices" := rfl
  have e7 : pyLower "multi-tenant" = "multi-tenant" := rfl
  unfold analyze_project_complexity
  congr 1
  unfold complexityScore specComplexityScore requirementsScore hasAnyTerm specContainsCI
    scaleScore typeScore
  simp only [List.any_cons, List.any_nil, e1, e2, e3, e4, e5, e6, e7]
  omega

/-- C4: raising one scoring factor — scale small→medium→large, project_type
moved to a class with a bonus at least as large, or a scoring keyword
appended to the requirements — never decreases the complexity tier
(tiers ordered SIMPLE < MODERATE < COMPLEX < ENTERPRISE). -/
theorem c4_tier_monotone (p q : ProjectInput)
    (h : (q = { p with scale := q.scale }
            ∧ ((p.scale = some "small" ∧ q.scale = some "medium")
                ∨ (p.scale = some "medium" ∧ q.scale = some "large")
                ∨ (p.scale = some "small" ∧ q.scale = some "large")))
      ∨ (q = { p with project_type := q.project_type }
            ∧ typeScore (p.project_type.getD "") ≤ typeScore (q.project_type.getD ""))
      ∨ (∃ r k, p.requirements = some r
            ∧ k ∈ ["paiement", "sécurité", "performance", "scalabilité",
                   "temps réel", "microservices", "multi-tenant"]
            ∧ q = { p with requirements := some (r ++ k) })) :
    tierRank (analyze_project_complexity p) ≤ tierRank (analyze_project_complexity q) := by
  apply tierOf_mono
  rcases h with ⟨hq, hs⟩ | ⟨hq, ht⟩ | ⟨r, k, hr, _, hq⟩
  · rw [hq]
    unfold complexityScore
    simp only
    have : scaleScore p.scale ≤ scaleScore q.scale := by
      rcases hs with ⟨h1, h2⟩ | ⟨h1, h2⟩ | ⟨h1, h2⟩ <;> rw [h1, h2] <;> decide
    omega
  · rw [hq]
    unfold complexityScore
    simp only
    omega
  · rw [hq]
    unfold complexityScore
    simp only [hr, Option.getD_some]
    have := requirementsScore_append r k
    omega

/-- C4 witness: the theorem applied to Scenario B's input and the same
input with scale raised from small to medium. -/
theorem c4_witness :
    tierRank (analyze_project_complexity smallScaleInput)
      ≤ tierRank (analyze_project_complexity mediumScaleInput) :=
  c4_tier_monotone smallScaleInput mediumScaleInput
    (Or.inl ⟨rfl, Or.inl ⟨rfl, rfl⟩⟩)

/-- C5, counterexample: with the exactly-matching preference "react" the
selected key is NOT excluded from the alternatives (they are all three
catalog keys, "react" included); and with the preference "React", which
matches the catalog key "react" only case-insensitively, the recommender
ignores the preference and takes the automatic branch (Vue.js for a SIMPLE
tier), so selection is not case-insensitive. -/
theorem c5_counterexample :
    (((generate_tech_recommendations exactPrefInput ProjectComplexity.SIMPLE).map
        fun r => (r.name, r.alternatives)).head?
      = some ("React", ["react", "vue", "nextjs"]))
    ∧ "react" ∈ ["react", "vue", "nextjs"]
    ∧ (((generate_tech_recommendations casedPrefInput ProjectComplexity.SIMPLE).map
        fun r => (r.name, r.reason)).head?
      = some ("Vue.js", "Facilité d'apprentissage et développement rapide")) := by
  refine ⟨rfl, by decide, rfl⟩

/-- C5, amended: if an explicit preference string is non-empty and equals a
catalog key of its category exactly (case-sensitively), the recommender
selects that catalog entry with the user-preference reason, and the
alternatives list is the list of ALL catalog keys of that category, the
selected key included (`userPrefRec`). -/
theorem c5_user_preference (input : ProjectInput) (c : ProjectComplexity) :
    (∀ p e, input.frontend_preference = some p → p ≠ "" →
      frontendDB.lookup p = some e →
      (generate_tech_recommendations input c).head?
        = some (userPrefRec TechStackCategory.FRONTEND frontendDB e))
    ∧ (∀ p e, input.backend_preference = some p → p ≠ "" →
      backendDB.lookup p = some e →
      (generate_tech_recommendations input c).get? 1
        = some (userPrefRec TechStackCategory.BACKEND backendDB e))
    ∧ (∀ p e, input.database_preference = some p → p ≠ "" →
      databaseDB.lookup p = some e →
      (generate_tech_recommendations input c).get? 2
        = some (userPrefRec TechStackCategory.DATABASE databaseDB e)) := by
  refine ⟨?_, ?_, ?_⟩
  · intro p e hp hne hl
    simp [generate_tech_recommendations, recFrontend, prefEntry, hp, hne, hl]
  · intro p e hp hne hl
    simp [generate_tech_recommendations, recBackend, prefEntry, hp, hne, hl]
  · intro p e hp hne hl
    simp [generate_tech_recommendations, recDatabase, prefEntry, hp, hne, hl]

/-- C5 witness: the amended theorem applied to an input preferring
"react", "python" and "mongodb". -/
theorem c5_witness :
    ((generate_tech_recommendations allPrefInput ProjectComplexity.MODERATE).head?
      = some (userPrefRec TechStackCategory.FRONTEND frontendDB reactEntry))
    ∧ ((generate_tech_recommendations allPrefInput ProjectComplexity.MODERATE).get? 1
      = some (userPrefRec TechStackCategory.BACKEND backendDB pythonEntry))
    ∧ ((generate_tech_recommendations allPrefInput ProjectComplexity.MODERATE).get? 2
      = some (userPrefRec TechStackCategory.DATABASE databaseDB mongodbEntry)) :=
  ⟨(c5_user_preference allPrefInput ProjectComplexity.MODERATE).1 "react" reactEntry
      rfl (by decide) (by decide),
   (c5_user_preference allPrefInput ProjectComplexity.MODERATE).2.1 "python" pythonEntry
      rfl (by decide) (by decide),
   (c5_user_preference allPrefInput ProjectComplexity.MODERATE).2.2 "mongodb" mongodbEntry
      rfl (by decide) (by decide)⟩

/-- C6: for every input and tier the timeline total is
`floor(template.base_weeks × multiplier(tier))` with multipliers
0.7/1.0/1.3/1.6, the five phases come in the fixed order with durations
`max(minimum, total_weeks // divisor)` for divisors (8,3,3,6,10) and
minimums (1,2,2,1,1); in particular Scenario B is SIMPLE with
`total_weeks = floor(8 × 0.7) = 5`. -/
theorem c6_timeline_formula (input : ProjectInput) (c : ProjectComplexity) :
    (estimate_project_timeline input c).2 = specTotalWeeks input c
    ∧ ((estimate_project_timeline input c).1.map fun p => (p.name, p.duration_weeks))
      = [("Planning & Setup", max 1 ((estimate_project_timeline input c).2 / 8)),
         ("Backend Development", max 2 ((estimate_project_timeline input c).2 / 3)),
         ("Frontend Development", max 2 ((estimate_project_timeline input c).2 / 3)),
         ("Integration & Testing", max 1 ((estimate_project_timeline input c).2 / 6)),
         ("Deployment & Launch", max 1 ((estimate_project_timeline input c).2 / 10))]
    ∧ analyze_project_complexity scenarioB = ProjectComplexity.SIMPLE
    ∧ (estimate_project_timeline scenarioB ProjectComplexity.SIMPLE).2 = 5 := by
  refine ⟨?_, rfl, rfl, rfl⟩
  show (templateOf input).estimated_weeks * multNum c / 10
    = ⌊((templateOf input).estimated_weeks : ℚ) * specMultiplier c⌋₊
  generalize (templateOf input).estimated_weeks = b
  cases c with
  | SIMPLE =>
      show b * 7 / 10 = ⌊(b : ℚ) * (7/10)⌋₊
      rw [show (b : ℚ) * (7/10) = ((b * 7 : ℕ) : ℚ) / ((10 : ℕ) : ℚ) by push_cast; ring,
        Nat.floor_div_nat, Nat.floor_natCast]
  | MODERATE =>
      show b * 10 / 10 = ⌊(b : ℚ) * 1⌋₊
      rw [mul_one, Nat.floor_natCast]
      omega
  | COMPLEX =>
      show b * 13 / 10 = ⌊(b : ℚ) * (13/10)⌋₊
      rw [show (b : ℚ) * (13/10) = ((b * 13 : ℕ) : ℚ) / ((10 : ℕ) : ℚ) by push_cast; ring,
        Nat.floor_div_nat, Nat.floor_natCast]
  | ENTERPRISE =>
      show b * 16 / 10 = ⌊(b : ℚ) * (8/5)⌋₊
      rw [show (b : ℚ) * (8/5) = ((b * 16 : ℕ) : ℚ) / ((10 : ℕ) : ℚ) by push_cast; ring,
        Nat.floor_div_nat, Nat.floor_natCast]

/-- C7: for every input, tier and week count, the cost estimator returns
`development_cost = total_weeks × 40 × 2.5 × 75`, its first-year total is
exactly `development_cost + 12 × (infrastructure + Σ third-party
+ maintenance)`, maintenance is `development_cost × 0.2 / 12`, and the
monthly infrastructure cost is 50/150/300/600 by tier. -/
theorem c7_cost_algebra (input : ProjectInput) (c : ProjectComplexity)
    (total_weeks : ℕ) :
    (estimate_costs input c total_weeks).development_cost
      = (total_weeks : ℚ) * 40 * (5/2) * 75
    ∧ (estimate_costs input c total_weeks).total_first_year
      = (estimate_costs input c total_weeks).development_cost
        + 12 * ((estimate_costs input c total_weeks).infrastructure_cost_monthly
            + ((estimate_costs input c total_weeks).third_party_services.map Prod.snd).sum
            + (estimate_costs input c total_weeks).maintenance_cost_monthly)
    ∧ (estimate_costs input c total_weeks).maintenance_cost_monthly
      = (estimate_costs input c total_weeks).development_cost * (1/5) / 12
    ∧ (estimate_costs input c total_weeks).infrastructure_cost_monthly
      = (if c = ProjectComplexity.SIMPLE then 50
         else if c = ProjectComplexity.MODERATE then 150
         else if c = ProjectComplexity.COMPLEX then 300 else 600) := by
  refine ⟨rfl, ?_, rfl, ?_⟩
  · unfold estimate_costs
    dsimp only
    ring
  · cases c <;> rfl

/-- C8: for every input and tier the recommender returns exactly three
recommendations, one per category, in the fixed order frontend, backend,
database — whichever preference or automatic branch is taken. -/
theorem c8_three_categories (input : ProjectInput) (c : ProjectComplexity) :
    (generate_tech_recommendations input c).map (·.category)
      = [TechStackCategory.FRONTEND, TechStackCategory.BACKEND,
         TechStackCategory.DATABASE] := by
  unfold generate_tech_recommendations recFrontend recBackend recDatabase
  cases prefEntry frontendDB input.frontend_preference <;>
    cases prefEntry backendDB input.backend_preference <;>
      cases prefEntry databaseDB input.database_preference <;>
        first
          | rfl
          | (split_ifs <;> rfl)

/-- C9: an unknown project type is not an error — architecture composition
and timeline estimation behave exactly as if the type were "api"; and an
explicit technology preference that matches no catalog key is not an error
— recommendation behaves exactly as with no preference (the automatic
policy). -/
theorem c9_documented_fallbacks (input : ProjectInput)
    (recs : List TechnologyRecommendation) (c : ProjectComplexity) :
    (projectTemplates.lookup (input.project_type.getD "custom") = none →
      generate_architecture_components input recs
        = generate_architecture_components { input with project_type := some "api" } recs
      ∧ estimate_project_timeline input c
        = estimate_project_timeline { input with project_type := some "api" } c)
    ∧ (∀ p, input.frontend_preference = some p → frontendDB.lookup p = none →
      generate_tech_recommendations input c
        = generate_tech_recommendations { input with frontend_preference := none } c)
    ∧ (∀ p, input.backend_preference = some p → backendDB.lookup p = none →
      generate_tech_recommendations input c
        = generate_tech_recommendations { input with backend_preference := none } c)
    ∧ (∀ p, input.database_preference = some p → databaseDB.lookup p = none →
      generate_tech_recommendations input c
        = generate_tech_recommendations { input with database_preference := none } c) := by
  refine ⟨?_, ?_, ?_, ?_⟩
  · intro h
    have hpt1 : input.project_type.getD "custom" ≠ "ecommerce" := by
      intro he
      rw [he] at h
      exact absurd h (by decide)
    have hpt2 : input.project_type.getD "custom" ≠ "mobile" := by
      intro he
      rw [he] at h
      exact absurd h (by decide)
    have hapi : projectTemplates.lookup "api" = some apiTemplate := rfl
    constructor
    · unfold generate_architecture_components
      simp [h, hpt1, hpt2, hapi]
    · unfold estimate_project_timeline templateOf
      simp [h, hapi]
  · intro p hp hl
    by_cases hpe : p = ""
    · simp [generate_tech_recommendations, recFrontend, recBackend, recDatabase,
        prefEntry, hp, hpe]
    · simp [generate_tech_recommendations, recFrontend, recBackend, recDatabase,
        prefEntry, hp, hpe, hl]
  · intro p hp hl
    by_cases hpe : p = ""
    · simp [generate_tech_recommendations, recFrontend, recBackend, recDatabase,
        prefEntry, hp, hpe]
    · simp [generate_tech_recommendations, recFrontend, recBackend, recDatabase,
        prefEntry, hp, hpe, hl]
  · intro p hp hl
    by_cases hpe : p = ""
    · simp [generate_tech_recommendations, recFrontend, recBackend, recDatabase,
        prefEntry, hp, hpe]
    · simp [generate_tech_recommendations, recFrontend, recBackend, recDatabase,
        prefEntry, hp, hpe, hl]

/-- C9 witness: Scenario C's input {project_type:"unknown_type",
scale:"medium"} with an unmatched frontend preference "angular", plus a
second input with unmatched backend and database preferences. -/
theorem c9_witness :
    (generate_architecture_components unknownTypeInput []
        = generate_architecture_components
            { unknownTypeInput with project_type := some "api" } []
      ∧ estimate_project_timeline unknownTypeInput ProjectComplexity.MODERATE
        = estimate_project_timeline
            { unknownTypeInput with project_type := some "api" } ProjectComplexity.MODERATE)
    ∧ generate_tech_recommendations unknownTypeInput ProjectComplexity.MODERATE
      = generate_tech_recommendations
          { unknownTypeInput with frontend_preference := none } ProjectComplexity.MODERATE
    ∧ generate_tech_recommendations unknownPrefInput ProjectComplexity.SIMPLE
      = generate_tech_recommendations
          { unknownPrefInput with backend_preference := none } ProjectComplexity.SIMPLE
    ∧ generate_tech_recommendations unknownPrefInput ProjectComplexity.SIMPLE
      = generate_tech_recommendations
          { unknownPrefInput with database_preference := none } ProjectComplexity.SIMPLE :=
  ⟨(c9_documented_fallbacks unknownTypeInput [] ProjectComplexity.MODERATE).1 (by decide),
   (c9_documented_fallbacks unknownTypeInput [] ProjectComplexity.MODERATE).2.1
      "angular" rfl (by decide),
   (c9_documented_fallbacks unknownPrefInput [] ProjectComplexity.SIMPLE).2.2.1
      "ruby" rfl (by decide),
   (c9_documented_fallbacks unknownPrefInput [] ProjectComplexity.SIMPLE).2.2.2
      "oracle" rfl (by decide)⟩

/-- C10: whenever the scale is neither "medium" nor "large" and the
template contains `api_backend`, the composed architecture has an
"API Backend" component whose connections include "cache", yet no
component of type "cache" exists — the connection names a missing
target. -/
theorem c10_dangling_cache_connection (input : ProjectInput)
    (recs : List TechnologyRecommendation)
    (h1 : input.scale ≠ some "medium") (h2 : input.scale ≠ some "large")
    (h3 : (templateOf input).base_components.contains "api_backend" = true) :
    ((generate_architecture_components input recs).any
        fun comp => comp.name == "API Backend" && comp.connections.contains "cache") = true
    ∧ ((generate_architecture_components input recs).all
        fun comp => comp.type != "cache") = true := by
  unfold templateOf at h3
  unfold generate_architecture_components
  simp only [h1, h2, h3, or_self, if_true, if_false]
  split_ifs <;> simp

/-- C10 witness: the theorem applied to a small-scale "api" project. -/
theorem c10_witness :
    ((generate_architecture_components smallApiInput []).any
        fun comp => comp.name == "API Backend" && comp.connections.contains "cache") = true
    ∧ ((generate_architecture_components smallApiInput []).all
        fun comp => comp.type != "cache") = true :=
  c10_dangling_cache_connection smallApiInput [] (by decide) (by decide) (by decide)
